import Mathlib

/-!
Shallow embedding of
`planning/behavior_path_planner/src/utils/path_safety_checker/objects_filtering.cpp`
(autoware.universe). Real-valued C++ `double` quantities are modelled as
exact rationals `ℚ`; comparisons against `std::hypot` (an irrational square
root) are encoded by the equivalent decidable comparisons of squares and are
related to the real square root in the theorems. External message types
(`geometry_msgs`, `autoware_auto_perception_msgs`) are modelled structurally
with the fields this translation reads.
-/

namespace ObjectsFiltering

/-- `std_msgs::msg::Header` (stamp and frame id); a default-constructed
header has zero stamp and an empty frame id. -/
structure Header where
  stamp : ℚ
  frame_id : String
deriving DecidableEq, Repr

instance : Inhabited Header := ⟨⟨0, ""⟩⟩

/-- `geometry_msgs::msg::Point`. -/
structure Point3 where
  x : ℚ
  y : ℚ
  z : ℚ
deriving DecidableEq, Repr

instance : Inhabited Point3 := ⟨⟨0, 0, 0⟩⟩

/-- `geometry_msgs::msg::Quaternion`. -/
structure QuaternionMsg where
  x : ℚ
  y : ℚ
  z : ℚ
  w : ℚ
deriving DecidableEq, Repr

instance : Inhabited QuaternionMsg := ⟨⟨0, 0, 0, 1⟩⟩

/-- `geometry_msgs::msg::Pose`. -/
structure Pose where
  position : Point3
  orientation : QuaternionMsg
deriving DecidableEq, Repr

instance : Inhabited Pose := ⟨⟨default, default⟩⟩

/-- `geometry_msgs::msg::Vector3`. -/
structure Vector3 where
  x : ℚ
  y : ℚ
  z : ℚ
deriving DecidableEq, Repr

instance : Inhabited Vector3 := ⟨⟨0, 0, 0⟩⟩

/-- `geometry_msgs::msg::Twist`. -/
structure Twist where
  linear : Vector3
  angular : Vector3
deriving DecidableEq, Repr

instance : Inhabited Twist := ⟨⟨default, default⟩⟩

/-- `geometry_msgs::msg::PoseWithCovariance` (covariance elided: the
translated code never reads it). -/
structure PoseWithCovariance where
  pose : Pose
deriving DecidableEq, Repr

instance : Inhabited PoseWithCovariance := ⟨⟨default⟩⟩

/-- `geometry_msgs::msg::TwistWithCovariance` (covariance elided). -/
structure TwistWithCovariance where
  twist : Twist
deriving DecidableEq, Repr

instance : Inhabited TwistWithCovariance := ⟨⟨default⟩⟩

/-- `geometry_msgs::msg::AccelWithCovariance` (covariance elided). -/
structure AccelWithCovariance where
  linear : Vector3
  angular : Vector3
deriving DecidableEq, Repr

instance : Inhabited AccelWithCovariance := ⟨⟨default, default⟩⟩

/-- `autoware_auto_perception_msgs::msg::ObjectClassification` labels. -/
inductive Label where
  | UNKNOWN
  | CAR
  | TRUCK
  | BUS
  | TRAILER
  | MOTORCYCLE
  | BICYCLE
  | PEDESTRIAN
deriving DecidableEq, Repr

instance : Inhabited Label := ⟨Label.UNKNOWN⟩

/-- One `(semantic class, probability)` classification entry. -/
structure ObjectClassification where
  label : Label
  probability : ℚ
deriving DecidableEq, Repr

instance : Inhabited ObjectClassification := ⟨⟨Label.UNKNOWN, 0⟩⟩

/-- `autoware_auto_perception_msgs::msg::Shape` (dimensions plus an optional
explicit footprint ring; only carried through, never inspected here). -/
structure Shape where
  dimensions : Vector3
  footprint : List (ℚ × ℚ)
deriving DecidableEq, Repr

instance : Inhabited Shape := ⟨⟨default, []⟩⟩

/-- `autoware_auto_perception_msgs::msg::PredictedPath`: poses sampled at a
fixed `time_step` starting at relative time 0, with a confidence score. -/
structure PredictedPath where
  path : List Pose
  time_step : ℚ
  confidence : ℚ
deriving DecidableEq, Repr

instance : Inhabited PredictedPath := ⟨⟨[], 0, 0⟩⟩

/-- `autoware_auto_perception_msgs::msg::PredictedObjectKinematics`. -/
structure PredictedObjectKinematics where
  initial_pose_with_covariance : PoseWithCovariance
  initial_twist_with_covariance : TwistWithCovariance
  initial_acceleration_with_covariance : AccelWithCovariance
  predicted_paths : List PredictedPath
deriving DecidableEq, Repr

instance : Inhabited PredictedObjectKinematics := ⟨⟨default, default, default, []⟩⟩

/-- `autoware_auto_perception_msgs::msg::PredictedObject`. -/
structure PredictedObject where
  object_id : ℕ
  classification : List ObjectClassification
  kinematics : PredictedObjectKinematics
  shape : Shape
deriving DecidableEq, Repr

instance : Inhabited PredictedObject := ⟨⟨0, [], default, default⟩⟩

/-- `autoware_auto_perception_msgs::msg::PredictedObjects`. -/
structure PredictedObjects where
  header : Header
  objects : List PredictedObject
deriving DecidableEq, Repr

instance : Inhabited PredictedObjects := ⟨⟨default, []⟩⟩

/-- A point of the route centerline
(`autoware_auto_planning_msgs::msg::PathPointWithLaneId`, flattened to the
pose the translated code hands to its geometry collaborators). -/
structure PathPointWithLaneId where
  pose : Pose
  lane_ids : List ℕ
deriving DecidableEq, Repr

instance : Inhabited PathPointWithLaneId := ⟨⟨default, []⟩⟩

/-- A 2D ring of points (`tier4_autoware_utils::Polygon2d` outer ring). -/
def Polygon2d : Type := List (ℚ × ℚ)

instance : DecidableEq Polygon2d := inferInstanceAs (DecidableEq (List (ℚ × ℚ)))
instance : Inhabited Polygon2d := ⟨([] : List (ℚ × ℚ))⟩

/-- `lanelet::ConstLanelet`, reduced to the only datum the translated code
reads from it: `polygon2d().basicPolygon()`, its 2D boundary ring. -/
structure ConstLanelet where
  polygon2d : List (ℚ × ℚ)
deriving DecidableEq, Repr

instance : Inhabited ConstLanelet := ⟨⟨[]⟩⟩

/-- `behavior_path_planner::utils::path_safety_checker::PoseWithVelocityStamped`. -/
structure PoseWithVelocityStamped where
  time : ℚ
  pose : Pose
  velocity : ℚ
deriving DecidableEq, Repr

instance : Inhabited PoseWithVelocityStamped := ⟨⟨0, default, 0⟩⟩

/-- `PoseWithVelocityAndPolygonStamped`: one projected sample of another
agent (time, pose, velocity, oriented footprint polygon). -/
structure PoseWithVelocityAndPolygonStamped where
  time : ℚ
  pose : Pose
  velocity : ℚ
  poly : Polygon2d
deriving DecidableEq

instance : Inhabited PoseWithVelocityAndPolygonStamped := ⟨⟨0, default, 0, default⟩⟩

/-- `PredictedPathWithPolygon`. -/
structure PredictedPathWithPolygon where
  confidence : ℚ
  path : List PoseWithVelocityAndPolygonStamped
deriving DecidableEq

instance : Inhabited PredictedPathWithPolygon := ⟨⟨0, []⟩⟩

/-- `ExtendedPredictedObject`. -/
structure ExtendedPredictedObject where
  uuid : ℕ
  initial_pose : PoseWithCovariance
  initial_twist : TwistWithCovariance
  initial_acceleration : AccelWithCovariance
  shape : Shape
  predicted_paths : List PredictedPathWithPolygon
deriving DecidableEq

instance : Inhabited ExtendedPredictedObject := ⟨⟨0, default, default, default, default, []⟩⟩

/-- `ObjectTypesToCheck`: the per-class boolean enable flags. -/
structure ObjectTypesToCheck where
  check_car : Bool
  check_truck : Bool
  check_bus : Bool
  check_trailer : Bool
  check_unknown : Bool
  check_bicycle : Bool
  check_motorcycle : Bool
  check_pedestrian : Bool
deriving DecidableEq, Repr

instance : Inhabited ObjectTypesToCheck :=
  ⟨⟨true, true, true, true, true, true, true, true⟩⟩

/-- `EgoPredictedPathParams` (the fields `createPredictedPath` reads). -/
structure EgoPredictedPathParams where
  min_slow_speed : ℚ
  acceleration : ℚ
  time_horizon : ℚ
  time_resolution : ℚ
deriving DecidableEq, Repr

/-- `ObjectsFilteringParams` (the fields `filterObjects` reads). -/
structure ObjectsFilteringParams where
  ignore_object_velocity_threshold : ℚ
  object_check_forward_distance : ℚ
  object_check_backward_distance : ℚ
  object_types_to_check : ObjectTypesToCheck
deriving DecidableEq, Repr

/-- Modelled from the spec: the external geometry and route collaborators
called by `objects_filtering.cpp` but implemented outside this repository
slice (`boost::geometry::disjoint`, `tier4_autoware_utils::toPolygon2d`,
`motion_utils::calcSignedArcLength`, `motion_utils::calcInterpolatedPose`
over a centerline, `convertToFrenetPoint`, and
`RouteHandler::getCenterLinePath`).  The spec treats them as opaque
collaborator queries (spec sections 1 and 6), so they are modelled as
arbitrary function parameters; every theorem below holds for any choice of
these functions. -/
structure GeoOps where
  toPolygon2d : PredictedObject → Polygon2d
  toPolygon2dAtPose : Pose → Shape → Polygon2d
  disjoint : Polygon2d → Polygon2d → Bool
  calcSignedArcLength : List PathPointWithLaneId → Point3 → Point3 → ℚ
  calcInterpolatedPoseOnPath : List PathPointWithLaneId → ℚ → Pose
  convertToFrenetLength : List PathPointWithLaneId → Point3 → ℕ → ℚ
  getCenterLinePath : List ConstLanelet → ℚ → ℚ → List PathPointWithLaneId

/-- The sampling loop `for (double t = 0.0; t < horizon + 1e-3; t += resolution)`
shared by `createPredictedPath` and `transform`: the list of the values `t`
takes, starting from `t0`.  The C++ loop does not terminate for a
non-positive resolution, hence the positivity argument. -/
def timeSampleLoop (res horizon : ℚ) (hres : 0 < res) (t : ℚ) : List ℚ :=
  if h : t < horizon + 1 / 1000 then
    t :: timeSampleLoop res horizon hres (t + res)
  else
    []
termination_by (⌈(horizon + 1 / 1000 - t) / res⌉).toNat
decreasing_by
  have hne : res ≠ 0 := ne_of_gt hres
  have hstep : (horizon + 1 / 1000 - (t + res)) / res
      = (horizon + 1 / 1000 - t) / res - 1 := by
    field_simp
    ring
  have hpos : (0 : ℚ) < (horizon + 1 / 1000 - t) / res :=
    div_pos (by linarith) hres
  have hceil : (0 : ℤ) < ⌈(horizon + 1 / 1000 - t) / res⌉ := Int.ceil_pos.mpr hpos
  rw [hstep, Int.ceil_sub_one]
  omega

/-- The sample times of the loop started at `t = 0.0`; empty for a
non-positive resolution (where the C++ loop would not terminate). -/
def sampleTimes (res horizon : ℚ) : List ℚ :=
  if h : 0 < res then timeSampleLoop res horizon h 0 else []

theorem timeSampleLoop_length_lt_iff (res horizon : ℚ) (hres : 0 < res) :
    ∀ (j : ℕ) (t : ℚ),
      j < (timeSampleLoop res horizon hres t).length ↔
        t + (j : ℚ) * res < horizon + 1 / 1000 := by
  intro j
  induction j with
  | zero =>
    intro t
    rw [timeSampleLoop.eq_def]
    split
    · rename_i h
      simpa using h
    · rename_i h
      simpa using h
  | succ k ih =>
    intro t
    rw [timeSampleLoop.eq_def]
    split
    · rename_i h
      have := ih (t + res)
      constructor
      · intro hlt
        have hk : k < (timeSampleLoop res horizon hres (t + res)).length := by
          simpa [Nat.succ_lt_succ_iff] using hlt
        have := (ih (t + res)).mp hk
        push_cast
        push_cast at this
        linarith
      · intro hlt
        have hk : t + res + (k : ℚ) * res < horizon + 1 / 1000 := by
          push_cast at hlt
          linarith
        have := (ih (t + res)).mpr hk
        simpa [Nat.succ_lt_succ_iff] using this
    · rename_i h
      push_neg at h
      constructor
      · intro hlt
        simp at hlt
      · intro hlt
        exfalso
        have hk : (0 : ℚ) ≤ (k : ℚ) * res := by positivity
        push_cast at hlt
        nlinarith

theorem timeSampleLoop_getD (res horizon : ℚ) (hres : 0 < res) :
    ∀ (j : ℕ) (t : ℚ), j < (timeSampleLoop res horizon hres t).length →
      (timeSampleLoop res horizon hres t).getD j 0 = t + (j : ℚ) * res := by
  intro j
  induction j with
  | zero =>
    intro t hj
    rw [timeSampleLoop.eq_def] at hj ⊢
    split at hj
    · simp [List.getD_cons_zero]
      split
      · simp
      · simp_all
    · simp at hj
  | succ k ih =>
    intro t hj
    rw [timeSampleLoop.eq_def] at hj ⊢
    split at hj
    · rename_i h
      rw [dif_pos h, List.getD_cons_succ]
      have hk : k < (timeSampleLoop res horizon hres (t + res)).length := by
        simpa [Nat.succ_lt_succ_iff] using hj
      rw [ih (t + res) hk]
      push_cast
      ring
    · simp at hj

theorem sampleTimes_length (res horizon : ℚ) (hres : 0 < res) :
    (sampleTimes res horizon).length = (⌈(horizon + 1 / 1000) / res⌉).toNat := by
  have key : ∀ j : ℕ, j < (sampleTimes res horizon).length ↔
      j < (⌈(horizon + 1 / 1000) / res⌉).toNat := by
    intro j
    rw [sampleTimes, dif_pos hres, timeSampleLoop_length_lt_iff res horizon hres j 0,
      zero_add]
    constructor
    · intro hlt
      have h1 : (j : ℚ) < (horizon + 1 / 1000) / res := (lt_div_iff₀ hres).mpr hlt
      have h2 : ((j : ℤ) : ℚ) < (horizon + 1 / 1000) / res := by exact_mod_cast h1
      have h3 : (j : ℤ) < ⌈(horizon + 1 / 1000) / res⌉ := Int.lt_ceil.mpr h2
      omega
    · intro hlt
      have h3 : (j : ℤ) < ⌈(horizon + 1 / 1000) / res⌉ := by omega
      have h2 : ((j : ℤ) : ℚ) < (horizon + 1 / 1000) / res := Int.lt_ceil.mp h3
      have h1 : (j : ℚ) < (horizon + 1 / 1000) / res := by exact_mod_cast h2
      exact (lt_div_iff₀ hres).mp h1
  have h1 := key (sampleTimes res horizon).length
  have h2 := key (⌈(horizon + 1 / 1000) / res⌉).toNat
  omega

theorem sampleTimes_eq (res horizon : ℚ) (hres : 0 < res) :
    sampleTimes res horizon =
      (List.range (⌈(horizon + 1 / 1000) / res⌉).toNat).map (fun (j : ℕ) => (j : ℚ) * res) := by
  apply List.ext_getElem
  · rw [sampleTimes_length res horizon hres, List.length_map, List.length_range]
  · intro n h1 h2
    have hn : n < (sampleTimes res horizon).length := h1
    have hd : (sampleTimes res horizon).getD n 0 = (n : ℚ) * res := by
      rw [sampleTimes, dif_pos hres] at hn ⊢
      rw [timeSampleLoop_getD res horizon hres n 0 hn, zero_add]
    rw [List.getElem_map, List.getElem_range]
    rw [List.getD_eq_getElem (sampleTimes res horizon) 0 hn] at hd
    exact hd

/-- The planar-speed window test of `filterObjectsByVelocity`
(`velocity_threshold < std::hypot(vx, vy) && std::hypot(vx, vy) < max_velocity`).
`std::hypot` is the irrational square root of `vx² + vy²`, so the two strict
comparisons are encoded by their exact rational equivalents on squares
(`t < √q  ↔  t < 0 ∨ t² < q`, and `√q < m  ↔  0 < m ∧ q < m²`, for `q ≥ 0`);
`speedKeep_iff_planar_speed` below proves this encoding is literally the
`hypot` comparison over the reals. -/
def speedKeep (velocity_threshold max_velocity : ℚ) (obj : PredictedObject) : Bool :=
  let vx := obj.kinematics.initial_twist_with_covariance.twist.linear.x
  let vy := obj.kinematics.initial_twist_with_covariance.twist.linear.y
  let q := vx ^ 2 + vy ^ 2
  (decide (velocity_threshold < 0) || decide (velocity_threshold ^ 2 < q)) &&
    (decide (0 < max_velocity) && decide (q < max_velocity ^ 2))

/-- `filterObjectsByVelocity(objects, velocity_threshold, max_velocity)`
(the two-bound overload, lines 69-83): copies the header and keeps exactly
the objects whose planar speed lies strictly between the two bounds. -/
def filterObjectsByVelocity (objects : PredictedObjects)
    (velocity_threshold max_velocity : ℚ) : PredictedObjects :=
  { header := objects.header
    objects := objects.objects.filter (speedKeep velocity_threshold max_velocity) }

/-- `2^1024 - 2^971 = std::numeric_limits<double>::max()`, the upper bound
the one-threshold overload passes for "no upper bound". -/
def doubleMax : ℚ := 2 ^ 1024 - 2 ^ 971

/-- `filterObjectsByVelocity(objects, velocity_threshold, remove_above_threshold)`
(the convenience overload, lines 58-67).  C++ overloads the same name; Lean
cannot, so this one carries a suffix. -/
def filterObjectsByVelocityMode (objects : PredictedObjects)
    (velocity_threshold : ℚ) (remove_above_threshold : Bool) : PredictedObjects :=
  if remove_above_threshold then
    filterObjectsByVelocity objects (-velocity_threshold) velocity_threshold
  else
    filterObjectsByVelocity objects velocity_threshold doubleMax

/-- `filterObjectsByPosition` (lines 85-109).  The C++ mutates `objects` in
place, keeping its original header and replacing only the object list; the
translation returns the mutated value. -/
def filterObjectsByPosition (G : GeoOps) (objects : PredictedObjects)
    (path_points : List PathPointWithLaneId) (current_pose : Point3)
    (forward_distance backward_distance : ℚ) : PredictedObjects :=
  { header := objects.header
    objects := objects.objects.filter fun obj =>
      let dist_ego_to_obj := G.calcSignedArcLength path_points current_pose
        obj.kinematics.initial_pose_with_covariance.pose.position
      decide (-backward_distance < dist_ego_to_obj) &&
        decide (dist_ego_to_obj < forward_distance) }

/-- Modelled from the spec: `utils::getHighestProbLabel` lives in
`behavior_path_planner/src/utils/utils.cpp`, which is not among the given
sources.  Spec section 4.1: "select the class with the maximum probability
among the object's classification entries; ties broken by first-listed-wins".
An empty classification has no entries; UNKNOWN is the inevitable default. -/
def getHighestProbLabel (classification : List ObjectClassification) : Label :=
  match classification with
  | [] => Label.UNKNOWN
  | c :: rest =>
    (rest.foldl (fun best e => if best.probability < e.probability then e else best) c).label

/-- The per-object class test of `filterObjectsByClass` (the eight-way
disjunction of lines 120-128). -/
def isTargetObjectType (object : PredictedObject) (target_object_types : ObjectTypesToCheck) : Bool :=
  let t := getHighestProbLabel object.classification
  (decide (t = Label.CAR) && target_object_types.check_car) ||
  (decide (t = Label.TRUCK) && target_object_types.check_truck) ||
  (decide (t = Label.BUS) && target_object_types.check_bus) ||
  (decide (t = Label.TRAILER) && target_object_types.check_trailer) ||
  (decide (t = Label.UNKNOWN) && target_object_types.check_unknown) ||
  (decide (t = Label.BICYCLE) && target_object_types.check_bicycle) ||
  (decide (t = Label.MOTORCYCLE) && target_object_types.check_motorcycle) ||
  (decide (t = Label.PEDESTRIAN) && target_object_types.check_pedestrian)

/-- `filterObjectsByClass` (lines 111-140).  The C++ accumulates the kept
objects into a local default-constructed `PredictedObjects` whose header is
never assigned, then moves that whole value over the argument: the result's
header is the default-constructed one, not the input's. -/
def filterObjectsByClass (objects : PredictedObjects)
    (target_object_types : ObjectTypesToCheck) : PredictedObjects :=
  { header := default
    objects := objects.objects.filter fun object => isTargetObjectType object target_object_types }

/-- `filterObjects` (lines 26-56): velocity gate, then class gate, then the
longitudinal window along the centerline queried from the route handler. -/
def filterObjects (G : GeoOps) (objects : PredictedObjects)
    (current_lanes : List ConstLanelet) (current_pose : Point3)
    (params : ObjectsFilteringParams) : PredictedObjects :=
  if objects.objects = [] then
    { header := default, objects := [] }
  else
    let filtered1 := filterObjectsByVelocityMode objects
      params.ignore_object_velocity_threshold false
    let filtered2 := filterObjectsByClass filtered1 params.object_types_to_check
    let path := G.getCenterLinePath current_lanes
      params.object_check_backward_distance params.object_check_forward_distance
    filterObjectsByPosition G filtered2 path current_pose
      params.object_check_forward_distance params.object_check_backward_distance

/-- Closing the lanelet boundary ring (line 169: the outer ring's front point
is pushed again after all boundary points). -/
def closeRing (pts : List (ℚ × ℚ)) : Polygon2d :=
  match pts with
  | [] => []
  | p :: rest => (p :: rest) ++ [p]

/-- The inner lanelet loop of `separateObjectIndicesByLanelets`
(lines 158-176): skip lanelets with an empty boundary polygon, stop at the
first lanelet whose closed ring is not disjoint from the object polygon. -/
def laneletHit (G : GeoOps) (obj_polygon : Polygon2d) :
    List ConstLanelet → Bool
  | [] => false
  | llt :: rest =>
    if llt.polygon2d = [] then laneletHit G obj_polygon rest
    else if G.disjoint (closeRing llt.polygon2d) obj_polygon = false then true
    else laneletHit G obj_polygon rest

/-- `separateObjectIndicesByLanelets` (lines 142-184): empty target lanelets
short-circuit to two empty index lists; otherwise each index `i` goes to the
first list iff its object's polygon hits some target lanelet. -/
def separateObjectIndicesByLanelets (G : GeoOps) (objects : PredictedObjects)
    (target_lanelets : List ConstLanelet) : List ℕ × List ℕ :=
  if target_lanelets = [] then ([], [])
  else
    ((List.range objects.objects.length).filter fun i =>
        laneletHit G (G.toPolygon2d (objects.objects.getD i default)) target_lanelets,
      (List.range objects.objects.length).filter fun i =>
        !laneletHit G (G.toPolygon2d (objects.objects.getD i default)) target_lanelets)

/-- `separateObjectsByLanelets` (lines 186-207): maps the two index lists
back to the objects; the two result batches are default-constructed, so their
headers are the default one. -/
def separateObjectsByLanelets (G : GeoOps) (objects : PredictedObjects)
    (target_lanelets : List ConstLanelet) : PredictedObjects × PredictedObjects :=
  let pair := separateObjectIndicesByLanelets G objects target_lanelets
  ({ header := default, objects := pair.1.map fun i => objects.objects.getD i default },
   { header := default, objects := pair.2.map fun i => objects.objects.getD i default })

/-- `std::max_element(begin, end, confidence <)` over the predicted paths:
returns `none` for an empty range, otherwise the first element no later
element strictly exceeds (the comparator admits only strict less-than, so
ties keep the earlier element). -/
def maxConfidencePath : List PredictedPathWithPolygon → Option PredictedPathWithPolygon
  | [] => none
  | p :: rest =>
    some (rest.foldl (fun best q => if best.confidence < q.confidence then q else best) p)

/-- `getPredictedPathFromObj` (lines 209-222). -/
def getPredictedPathFromObj (obj : ExtendedPredictedObject)
    (is_use_all_predicted_path : Bool) : List PredictedPathWithPolygon :=
  if !is_use_all_predicted_path then
    match maxConfidencePath obj.predicted_paths with
    | some p => [p]
    | none => obj.predicted_paths
  else obj.predicted_paths

/-- `createPredictedPath` (lines 224-252): empty centerline yields the empty
path; otherwise one sample per loop time `t`, with constant-acceleration
velocity clamped from below by `min_slow_speed` and the pose interpolated on
the centerline at the initial Frenet arc length plus the traveled length. -/
def createPredictedPath (G : GeoOps)
    (ego_predicted_path_params : EgoPredictedPathParams)
    (path_points : List PathPointWithLaneId) (vehicle_pose : Pose)
    (current_velocity : ℚ) (ego_seg_idx : ℕ) : List PoseWithVelocityStamped :=
  if path_points = [] then []
  else
    let min_slow_down_speed := ego_predicted_path_params.min_slow_speed
    let acceleration := ego_predicted_path_params.acceleration
    let vehicle_pose_frenet_length :=
      G.convertToFrenetLength path_points vehicle_pose.position ego_seg_idx
    (sampleTimes ego_predicted_path_params.time_resolution
        ego_predicted_path_params.time_horizon).map fun t =>
      { time := t
        pose := G.calcInterpolatedPoseOnPath path_points
          (vehicle_pose_frenet_length + (current_velocity * t + 1 / 2 * acceleration * t * t))
        velocity := max (current_velocity + acceleration * t) min_slow_down_speed }

/-- Componentwise linear interpolation between two poses at ratio `r`
(position and orientation both lerped; the claims below constrain only which
sample times produce a pose, not the interpolated value itself). -/
def poseLerp (a b : Pose) (r : ℚ) : Pose :=
  { position :=
      { x := a.position.x + r * (b.position.x - a.position.x)
        y := a.position.y + r * (b.position.y - a.position.y)
        z := a.position.z + r * (b.position.z - a.position.z) }
    orientation :=
      { x := a.orientation.x + r * (b.orientation.x - a.orientation.x)
        y := a.orientation.y + r * (b.orientation.y - a.orientation.y)
        z := a.orientation.z + r * (b.orientation.z - a.orientation.z)
        w := a.orientation.w + r * (b.orientation.w - a.orientation.w) } }

/-- The interpolated pose of a predicted path at an in-span relative time:
the bracketing samples at indices `⌊t / time_step⌋` and the next one (both
clamped to the last sample) lerped at the fractional remainder, with the
interpolation ratio clamped to `[0, 1]`. -/
def interpPoseAt (path : PredictedPath) (t : ℚ) : Pose :=
  let n := path.path.length
  let i := min (t / path.time_step).floor.toNat (n - 1)
  let p0 := path.path.getD i default
  let p1 := path.path.getD (min (i + 1) (n - 1)) default
  let ratio :=
    if path.time_step = 0 then 0
    else min 1 (max 0 ((t - (i : ℚ) * path.time_step) / path.time_step))
  poseLerp p0 p1 ratio

/-- Modelled from the spec: `object_recognition_utils::calcInterpolatedPose`
is not among the given sources.  Spec sections 4.3 and 7: "interpolate that
path's pose at time t (skip the sample if interpolation is undefined, e.g. t
beyond the path's own span — no extrapolation)".  A predicted path's samples
sit at relative times `0, time_step, …, time_step·(n-1)`, so its span is
`[0, time_step·(n-1)]`; outside that span (or for an empty path) the
interpolation is undefined. -/
def calcInterpolatedPose (path : PredictedPath) (t : ℚ) : Option Pose :=
  if path.path = [] then none
  else if t < 0 then none
  else if path.time_step * ((path.path.length - 1 : ℕ) : ℚ) < t then none
  else some (interpPoseAt path t)

/-- `transform` (lines 273-303): copies identity, initial kinematics and
shape, reads the scalar `initial_twist.twist.linear.x` once as `obj_velocity`,
and resamples every predicted path on the shared time grid, emitting a sample
(with the oriented footprint polygon at the interpolated pose and the
constant `obj_velocity`) exactly when the interpolation is defined. -/
def transform (G : GeoOps) (object : PredictedObject)
    (safety_check_time_horizon safety_check_time_resolution : ℚ) : ExtendedPredictedObject :=
  let obj_velocity := object.kinematics.initial_twist_with_covariance.twist.linear.x
  { uuid := object.object_id
    initial_pose := object.kinematics.initial_pose_with_covariance
    initial_twist := object.kinematics.initial_twist_with_covariance
    initial_acceleration := object.kinematics.initial_acceleration_with_covariance
    shape := object.shape
    predicted_paths := object.kinematics.predicted_paths.map fun path =>
      { confidence := path.confidence
        path := (sampleTimes safety_check_time_resolution safety_check_time_horizon).filterMap
          fun t =>
            (calcInterpolatedPose path t).map fun obj_pose =>
              { time := t
                pose := obj_pose
                velocity := obj_velocity
                poly := G.toPolygon2dAtPose obj_pose object.shape } } }

theorem nat_mul_lt_iff_lt_ceil (res horizon : ℚ) (hres : 0 < res) (j : ℕ) :
    (j : ℚ) * res < horizon + 1 / 1000 ↔ j < (⌈(horizon + 1 / 1000) / res⌉).toNat := by
  constructor
  · intro hlt
    have h1 : (j : ℚ) < (horizon + 1 / 1000) / res := (lt_div_iff₀ hres).mpr hlt
    have h2 : ((j : ℤ) : ℚ) < (horizon + 1 / 1000) / res := by exact_mod_cast h1
    have h3 : (j : ℤ) < ⌈(horizon + 1 / 1000) / res⌉ := Int.lt_ceil.mpr h2
    omega
  · intro hlt
    have h3 : (j : ℤ) < ⌈(horizon + 1 / 1000) / res⌉ := by omega
    have h2 : ((j : ℤ) : ℚ) < (horizon + 1 / 1000) / res := Int.lt_ceil.mp h3
    have h1 : (j : ℚ) < (horizon + 1 / 1000) / res := by exact_mod_cast h2
    exact (lt_div_iff₀ hres).mp h1

/-- A concrete instance of the external collaborators, used only to
instantiate the universally quantified theorems below on closed inputs:
the footprint is the single position vertex, two polygons are "disjoint"
when they share no vertex, the signed arc length is the difference of the
x coordinates, and centerline interpolation puts the arc length into x. -/
def G0 : GeoOps :=
  { toPolygon2d := fun obj =>
      [(obj.kinematics.initial_pose_with_covariance.pose.position.x,
        obj.kinematics.initial_pose_with_covariance.pose.position.y)]
    toPolygon2dAtPose := fun pose _ => [(pose.position.x, pose.position.y)]
    disjoint := fun p q => !(p.any fun a => q.any fun b => a = b)
    calcSignedArcLength := fun _ ego target => target.x - ego.x
    calcInterpolatedPoseOnPath := fun _ s =>
      { position := { x := s, y := 0, z := 0 }, orientation := default }
    convertToFrenetLength := fun _ p _ => p.x
    getCenterLinePath := fun _ _ _ => [] }

/-- An object at planar position `(px, py)` with planar velocity `(vx, vy)`,
classification list `cls` and predicted paths `paths`. -/
def mkObject (id : ℕ) (px py vx vy : ℚ) (cls : List ObjectClassification)
    (paths : List PredictedPath) : PredictedObject :=
  { object_id := id
    classification := cls
    kinematics :=
      { initial_pose_with_covariance :=
          { pose := { position := { x := px, y := py, z := 0 }, orientation := default } }
        initial_twist_with_covariance :=
          { twist := { linear := { x := vx, y := vy, z := 0 }, angular := default } }
        initial_acceleration_with_covariance := default
        predicted_paths := paths }
    shape := default }

/-- C9: partitioning any object batch by an empty target lanelet list yields
two empty collections (empty index lists and empty object batches), never the
original objects in either output. -/
theorem separateByLanelets_empty_spec (G : GeoOps) (objects : PredictedObjects) :
    separateObjectIndicesByLanelets G objects [] = ([], []) ∧
    (separateObjectsByLanelets G objects []).1.objects = [] ∧
    (separateObjectsByLanelets G objects []).2.objects = [] := by
  refine ⟨rfl, ?_, ?_⟩ <;>
    simp [separateObjectsByLanelets, separateObjectIndicesByLanelets]

/-- C4: the longitudinal-window gate keeps exactly the objects whose signed
arc length from the ego position lies strictly in
`(-backward_distance, forward_distance)` (order preserved by `filter`);
consequently with both distances zero every object at nonzero signed arc
length is removed. -/
theorem filterObjectsByPosition_spec (G : GeoOps) (objects : PredictedObjects)
    (path_points : List PathPointWithLaneId) (current_pose : Point3)
    (forward_distance backward_distance : ℚ) :
    (filterObjectsByPosition G objects path_points current_pose
        forward_distance backward_distance).objects
      = objects.objects.filter (fun obj =>
          decide (-backward_distance < G.calcSignedArcLength path_points current_pose
            obj.kinematics.initial_pose_with_covariance.pose.position) &&
          decide (G.calcSignedArcLength path_points current_pose
            obj.kinematics.initial_pose_with_covariance.pose.position < forward_distance)) ∧
    (backward_distance = 0 → forward_distance = 0 → ∀ obj : PredictedObject,
      G.calcSignedArcLength path_points current_pose
          obj.kinematics.initial_pose_with_covariance.pose.position ≠ 0 →
        obj ∉ (filterObjectsByPosition G objects path_points current_pose
          forward_distance backward_distance).objects) := by
  constructor
  · rfl
  · intro hb hf obj _ hmem
    rw [filterObjectsByPosition] at hmem
    simp only [List.mem_filter, Bool.and_eq_true, decide_eq_true_eq] at hmem
    obtain ⟨-, h1, h2⟩ := hmem
    rw [hb] at h1
    rw [hf] at h2
    linarith

/-- A two-object batch with a nontrivial header: one object 1 m ahead of the
origin, one at the origin. -/
def objsPos : PredictedObjects :=
  { header := { stamp := 7, frame_id := "map" }
    objects := [mkObject 1 1 0 0 0 [] [], mkObject 2 0 0 0 0 [] []] }

theorem filterObjectsByPosition_spec_witness :
    mkObject 1 1 0 0 0 [] [] ∉
      (filterObjectsByPosition G0 objsPos [] { x := 0, y := 0, z := 0 } 0 0).objects :=
  (filterObjectsByPosition_spec G0 objsPos [] { x := 0, y := 0, z := 0 } 0 0).2
    rfl rfl (mkObject 1 1 0 0 0 [] []) (by norm_num [G0, mkObject])

/-- C10: on a non-empty input batch `filterObjects` returns a batch whose
header is the default-constructed one, not the input's: the velocity stage
copies the input header, but the class stage replaces the whole batch with a
locally default-constructed one whose header is never assigned, and the
position stage then preserves that default header. -/
theorem filterObjects_header_spec (G : GeoOps) (objects : PredictedObjects)
    (current_lanes : List ConstLanelet) (current_pose : Point3)
    (params : ObjectsFilteringParams) (h : objects.objects ≠ []) :
    (filterObjectsByVelocityMode objects
        params.ignore_object_velocity_threshold false).header = objects.header ∧
    (filterObjectsByClass objects params.object_types_to_check).header = default ∧
    (filterObjects G objects current_lanes current_pose params).header = default := by
  refine ⟨rfl, rfl, ?_⟩
  rw [filterObjects, if_neg h]
  rfl

/-- Parameters for the C10 witness. -/
def paramsW : ObjectsFilteringParams :=
  { ignore_object_velocity_threshold := 1
    object_check_forward_distance := 100
    object_check_backward_distance := 100
    object_types_to_check := default }

theorem filterObjects_header_spec_witness :
    (filterObjectsByVelocityMode objsPos
        paramsW.ignore_object_velocity_threshold false).header = objsPos.header ∧
    (filterObjectsByClass objsPos paramsW.object_types_to_check).header = default ∧
    (filterObjects G0 objsPos [] { x := 0, y := 0, z := 0 } paramsW).header = default :=
  filterObjects_header_spec G0 objsPos [] { x := 0, y := 0, z := 0 } paramsW (by decide)

/-- C3: the two-bound velocity filter returns exactly the objects whose
planar speed magnitude `s = hypot(vx, vy)` — the unique nonnegative real
with `s² = vx² + vy²` — satisfies `velocity_threshold < s < max_velocity`
strictly on both ends, in input order (`List.filter` preserves order). -/
theorem filterObjectsByVelocity_spec (objects : PredictedObjects)
    (velocity_threshold max_velocity : ℚ) :
    (filterObjectsByVelocity objects velocity_threshold max_velocity).objects
      = objects.objects.filter (speedKeep velocity_threshold max_velocity) ∧
    ∀ obj : PredictedObject,
      speedKeep velocity_threshold max_velocity obj = true ↔
        ∃ s : ℝ, 0 ≤ s ∧
          s ^ 2 = ((obj.kinematics.initial_twist_with_covariance.twist.linear.x ^ 2
            + obj.kinematics.initial_twist_with_covariance.twist.linear.y ^ 2 : ℚ) : ℝ) ∧
          (velocity_threshold : ℝ) < s ∧ s < (max_velocity : ℝ) := by
  refine ⟨rfl, ?_⟩
  intro obj
  set vx := obj.kinematics.initial_twist_with_covariance.twist.linear.x with hvx
  set vy := obj.kinematics.initial_twist_with_covariance.twist.linear.y with hvy
  have hq0 : (0 : ℝ) ≤ ((vx ^ 2 + vy ^ 2 : ℚ) : ℝ) := by
    push_cast
    positivity
  constructor
  · intro hkeep
    simp only [speedKeep, Bool.and_eq_true, Bool.or_eq_true, decide_eq_true_eq] at hkeep
    obtain ⟨h1, h2, h3⟩ := hkeep
    refine ⟨Real.sqrt ((vx ^ 2 + vy ^ 2 : ℚ) : ℝ), Real.sqrt_nonneg _,
      Real.sq_sqrt hq0, ?_, ?_⟩
    · rcases h1 with h1 | h1
      · have hneg : (velocity_threshold : ℝ) < 0 := by exact_mod_cast h1
        exact lt_of_lt_of_le hneg (Real.sqrt_nonneg _)
      · have hsq : (velocity_threshold : ℝ) ^ 2 < ((vx ^ 2 + vy ^ 2 : ℚ) : ℝ) := by
          exact_mod_cast h1
        have : (velocity_threshold : ℝ) ^ 2
            < Real.sqrt ((vx ^ 2 + vy ^ 2 : ℚ) : ℝ) ^ 2 := by
          rw [Real.sq_sqrt hq0]
          exact hsq
        exact lt_of_pow_lt_pow_left 2 (Real.sqrt_nonneg _) this
    · have hmx : (0 : ℝ) < (max_velocity : ℝ) := by exact_mod_cast h2
      have hsq : ((vx ^ 2 + vy ^ 2 : ℚ) : ℝ) < (max_velocity : ℝ) ^ 2 := by
        exact_mod_cast h3
      exact (Real.sqrt_lt' hmx).mpr hsq
  · rintro ⟨s, hs0, hs2, hlt, hmx⟩
    simp only [speedKeep, Bool.and_eq_true, Bool.or_eq_true, decide_eq_true_eq]
    refine ⟨?_, ?_, ?_⟩
    · by_cases hvt : velocity_threshold < 0
      · exact Or.inl hvt
      · right
        push_neg at hvt
        have h0 : (0 : ℝ) ≤ (velocity_threshold : ℝ) := by exact_mod_cast hvt
        have hp : (velocity_threshold : ℝ) ^ 2 < s ^ 2 :=
          pow_lt_pow_left hlt h0 (by norm_num)
        rw [hs2] at hp
        exact_mod_cast hp
    · have : (0 : ℝ) < (max_velocity : ℝ) := lt_of_le_of_lt hs0 hmx
      exact_mod_cast this
    · have hp : s ^ 2 < (max_velocity : ℝ) ^ 2 := pow_lt_pow_left hmx hs0 (by norm_num)
      rw [hs2] at hp
      exact_mod_cast hp

/-- A batch with one fast object (planar speed 5) and one object at rest,
under a nontrivial header. -/
def objsVel : PredictedObjects :=
  { header := { stamp := 2, frame_id := "map" }
    objects := [mkObject 1 0 0 3 4 [] [], mkObject 2 0 0 0 0 [] []] }

theorem filterObjectsByVelocity_spec_witness :
    (filterObjectsByVelocity objsVel 1 10).objects = [mkObject 1 0 0 3 4 [] []] :=
  ((filterObjectsByVelocity_spec objsVel 1 10).1).trans
    (by norm_num [objsVel, mkObject, speedKeep, List.filter_cons, List.filter_nil])

theorem foldl_pickMax_decomp {α : Type} (f : α → ℚ) :
    ∀ (l : List α) (a : α), ∃ (e : α) (pre post : List α),
      a :: l = pre ++ e :: post ∧
      l.foldl (fun best x => if f best < f x then x else best) a = e ∧
      (∀ x ∈ pre, f x < f e) ∧ (∀ x ∈ post, f x ≤ f e) := by
  intro l
  induction l with
  | nil =>
    intro a
    exact ⟨a, [], [], rfl, rfl, by simp, by simp⟩
  | cons b rest ih =>
    intro a
    simp only [List.foldl_cons]
    by_cases hab : f a < f b
    · rw [if_pos hab]
      obtain ⟨e, pre, post, hsplit, hfold, hpre, hpost⟩ := ih b
      have hbe : f b ≤ f e := by
        cases pre with
        | nil =>
          simp only [List.nil_append] at hsplit
          obtain ⟨rfl, -⟩ := List.cons.inj hsplit
          exact le_refl _
        | cons p ps =>
          have hsp : b = p ∧ rest = ps ++ e :: post := by
            rw [List.cons_append] at hsplit
            exact List.cons.inj hsplit
          exact le_of_lt (hsp.1 ▸ hpre p (by simp))
      refine ⟨e, a :: pre, post, ?_, hfold, ?_, hpost⟩
      · rw [List.cons_append, ← hsplit]
      · intro x hx
        rcases List.mem_cons.mp hx with rfl | hx2
        · exact lt_of_lt_of_le hab hbe
        · exact hpre x hx2
    · rw [if_neg hab]
      push_neg at hab
      obtain ⟨e, pre, post, hsplit, hfold, hpre, hpost⟩ := ih a
      cases pre with
      | nil =>
        simp only [List.nil_append] at hsplit
        obtain ⟨heq, hrest⟩ := List.cons.inj hsplit
        refine ⟨e, [], b :: post, ?_, hfold, by simp, ?_⟩
        · rw [List.nil_append, ← heq, hrest]
        · intro x hx
          rcases List.mem_cons.mp hx with rfl | hx2
          · exact le_trans hab (heq ▸ le_refl (f a))
          · exact hpost x hx2
      | cons p ps =>
        have hsp : a = p ∧ rest = ps ++ e :: post := by
          rw [List.cons_append] at hsplit
          exact List.cons.inj hsplit
        have hae : f a < f e := hsp.1 ▸ hpre p (by simp)
        refine ⟨e, a :: b :: ps, post, ?_, hfold, ?_, hpost⟩
        · rw [show a :: b :: ps ++ e :: post = a :: b :: (ps ++ e :: post) from rfl, ← hsp.2]
        · intro x hx
          rcases List.mem_cons.mp hx with rfl | hx2
          · exact hae
          · rcases List.mem_cons.mp hx2 with rfl | hx3
            · exact lt_of_le_of_lt hab hae
            · exact hpre x (hsp.1 ▸ List.mem_cons_of_mem p hx3)

/-- The "is this highest-probability label enabled" reading of the class
gate's eight-way disjunction, as an exhaustive match on the label. -/
def isClassEnabled (target_object_types : ObjectTypesToCheck) : Label → Bool
  | Label.CAR => target_object_types.check_car
  | Label.TRUCK => target_object_types.check_truck
  | Label.BUS => target_object_types.check_bus
  | Label.TRAILER => target_object_types.check_trailer
  | Label.UNKNOWN => target_object_types.check_unknown
  | Label.BICYCLE => target_object_types.check_bicycle
  | Label.MOTORCYCLE => target_object_types.check_motorcycle
  | Label.PEDESTRIAN => target_object_types.check_pedestrian

/-- C7: the class gate keeps exactly the objects whose highest-probability
label is enabled in the configured class set, and the highest-probability
label is the first-listed classification entry attaining the maximum
probability (every earlier entry has strictly smaller probability, every
later one is no larger). -/
theorem filterObjectsByClass_spec (objects : PredictedObjects)
    (target_object_types : ObjectTypesToCheck) :
    (filterObjectsByClass objects target_object_types).objects
      = objects.objects.filter (fun o =>
          isClassEnabled target_object_types (getHighestProbLabel o.classification)) ∧
    ∀ (c : ObjectClassification) (rest : List ObjectClassification),
      ∃ (e : ObjectClassification) (pre post : List ObjectClassification),
        c :: rest = pre ++ e :: post ∧
        getHighestProbLabel (c :: rest) = e.label ∧
        (∀ x ∈ pre, x.probability < e.probability) ∧
        (∀ x ∈ post, x.probability ≤ e.probability) := by
  constructor
  · rw [filterObjectsByClass]
    apply List.filter_congr
    intro o _
    cases h : getHighestProbLabel o.classification <;>
      simp [isTargetObjectType, isClassEnabled, h]
  · intro c rest
    obtain ⟨e, pre, post, hsplit, hfold, hpre, hpost⟩ :=
      foldl_pickMax_decomp (fun x : ObjectClassification => x.probability) rest c
    exact ⟨e, pre, post, hsplit, by rw [getHighestProbLabel, hfold], hpre, hpost⟩

/-- Classification fixtures: a car/truck tie at probability 1/2 (first listed
must win) and a pedestrian. -/
def objCarTie : PredictedObject :=
  mkObject 1 0 0 0 0 [⟨Label.CAR, 1/2⟩, ⟨Label.TRUCK, 1/2⟩] []

/-- A pedestrian-labeled object. -/
def objPed : PredictedObject :=
  mkObject 2 0 0 0 0 [⟨Label.PEDESTRIAN, 9/10⟩] []

/-- Class set enabling cars but not pedestrians (nor trucks). -/
def typesCarOnly : ObjectTypesToCheck :=
  { check_car := true, check_truck := false, check_bus := false
    check_trailer := false, check_unknown := false, check_bicycle := false
    check_motorcycle := false, check_pedestrian := false }

theorem filterObjectsByClass_spec_witness :
    (filterObjectsByClass { header := default, objects := [objCarTie, objPed] }
        typesCarOnly).objects = [objCarTie] :=
  ((filterObjectsByClass_spec { header := default, objects := [objCarTie, objPed] }
      typesCarOnly).1).trans
    (by norm_num [objCarTie, objPed, mkObject, getHighestProbLabel, isClassEnabled,
      typesCarOnly, List.filter_cons, List.filter_nil])

/-- C8: with the use-all flag false and a non-empty path list,
`getPredictedPathFromObj` returns exactly one path, the first-listed path
attaining the maximum confidence (the `std::max_element` comparator admits
only strict less-than, so earlier paths of tied confidence win). -/
theorem getPredictedPathFromObj_spec (obj : ExtendedPredictedObject)
    (h : obj.predicted_paths ≠ []) :
    ∃ (m : PredictedPathWithPolygon) (pre post : List PredictedPathWithPolygon),
      getPredictedPathFromObj obj false = [m] ∧
      obj.predicted_paths = pre ++ m :: post ∧
      (∀ p ∈ pre, p.confidence < m.confidence) ∧
      (∀ p ∈ post, p.confidence ≤ m.confidence) := by
  obtain ⟨c, rest, hcr⟩ := List.exists_cons_of_ne_nil h
  obtain ⟨e, pre, post, hsplit, hfold, hpre, hpost⟩ :=
    foldl_pickMax_decomp (fun p : PredictedPathWithPolygon => p.confidence) rest c
  refine ⟨e, pre, post, ?_, by rw [hcr]; exact hsplit, hpre, hpost⟩
  rw [getPredictedPathFromObj]
  simp only [Bool.not_false, if_pos]
  rw [hcr]
  simp only [maxConfidencePath, hfold]

/-- Three predicted paths with confidences 1, 2, 2: the second is the first
maximum. -/
def extObjPaths : ExtendedPredictedObject :=
  { uuid := 5
    initial_pose := default
    initial_twist := default
    initial_acceleration := default
    shape := default
    predicted_paths := [⟨1, []⟩, ⟨2, []⟩, ⟨2, [default]⟩] }

theorem getPredictedPathFromObj_spec_witness :
    getPredictedPathFromObj extObjPaths false = [(⟨2, []⟩ : PredictedPathWithPolygon)] := by
  obtain ⟨m, pre, post, hm, hsplit, hpre, hpost⟩ :=
    getPredictedPathFromObj_spec extObjPaths (by simp [extObjPaths])
  decide

theorem laneletHit_iff (G : GeoOps) (obj_polygon : Polygon2d) :
    ∀ llts : List ConstLanelet,
      laneletHit G obj_polygon llts = true ↔
        ∃ llt ∈ llts, llt.polygon2d ≠ [] ∧
          G.disjoint (closeRing llt.polygon2d) obj_polygon = false := by
  intro llts
  induction llts with
  | nil => simp [laneletHit]
  | cons l rest ih =>
    by_cases h1 : l.polygon2d = []
    · rw [show laneletHit G obj_polygon (l :: rest) = laneletHit G obj_polygon rest
          from by rw [laneletHit, if_pos h1], ih]
      constructor
      · rintro ⟨llt, hm, hne, hd⟩
        exact ⟨llt, List.mem_cons_of_mem l hm, hne, hd⟩
      · rintro ⟨llt, hm, hne, hd⟩
        rcases List.mem_cons.mp hm with rfl | hm2
        · exact absurd h1 hne
        · exact ⟨llt, hm2, hne, hd⟩
    · by_cases h2 : G.disjoint (closeRing l.polygon2d) obj_polygon = false
      · rw [show laneletHit G obj_polygon (l :: rest) = true
            from by rw [laneletHit, if_neg h1, if_pos h2]]
        simp only [true_iff]
        exact ⟨l, List.mem_cons_self l rest, h1, h2⟩
      · rw [show laneletHit G obj_polygon (l :: rest) = laneletHit G obj_polygon rest
            from by rw [laneletHit, if_neg h1, if_neg h2], ih]
        constructor
        · rintro ⟨llt, hm, hne, hd⟩
          exact ⟨llt, List.mem_cons_of_mem l hm, hne, hd⟩
        · rintro ⟨llt, hm, hne, hd⟩
          rcases List.mem_cons.mp hm with rfl | hm2
          · exact absurd hd h2
          · exact ⟨llt, hm2, hne, hd⟩

/-- C5: with a non-empty target lanelet list, an index lands in the
in-lanelets output iff it is a valid index whose object's footprint polygon
is not disjoint from the closed boundary ring of at least one target lanelet
(lanelets with an empty boundary polygon never match); every valid index
appears in exactly one of the two outputs, and `separateObjectsByLanelets`
maps the two index lists back to the objects. -/
theorem separateObjectIndicesByLanelets_spec (G : GeoOps)
    (objects : PredictedObjects) (target_lanelets : List ConstLanelet)
    (h : target_lanelets ≠ []) :
    (∀ i : ℕ,
      i ∈ (separateObjectIndicesByLanelets G objects target_lanelets).1 ↔
        i < objects.objects.length ∧
        ∃ llt ∈ target_lanelets, llt.polygon2d ≠ [] ∧
          G.disjoint (closeRing llt.polygon2d)
            (G.toPolygon2d (objects.objects.getD i default)) = false) ∧
    (∀ i : ℕ,
      i ∈ (separateObjectIndicesByLanelets G objects target_lanelets).2 ↔
        i < objects.objects.length ∧
        ¬ ∃ llt ∈ target_lanelets, llt.polygon2d ≠ [] ∧
          G.disjoint (closeRing llt.polygon2d)
            (G.toPolygon2d (objects.objects.getD i default)) = false) ∧
    (∀ i < objects.objects.length,
      (i ∈ (separateObjectIndicesByLanelets G objects target_lanelets).1 ∧
        i ∉ (separateObjectIndicesByLanelets G objects target_lanelets).2) ∨
      (i ∉ (separateObjectIndicesByLanelets G objects target_lanelets).1 ∧
        i ∈ (separateObjectIndicesByLanelets G objects target_lanelets).2)) ∧
    (separateObjectsByLanelets G objects target_lanelets).1.objects
      = (separateObjectIndicesByLanelets G objects target_lanelets).1.map
          (fun i => objects.objects.getD i default) ∧
    (separateObjectsByLanelets G objects target_lanelets).2.objects
      = (separateObjectIndicesByLanelets G objects target_lanelets).2.map
          (fun i => objects.objects.getD i default) := by
  have hpair : separateObjectIndicesByLanelets G objects target_lanelets
      = ((List.range objects.objects.length).filter fun i =>
          laneletHit G (G.toPolygon2d (objects.objects.getD i default)) target_lanelets,
        (List.range objects.objects.length).filter fun i =>
          !laneletHit G (G.toPolygon2d (objects.objects.getD i default)) target_lanelets) := by
    rw [separateObjectIndicesByLanelets, if_neg h]
  refine ⟨?_, ?_, ?_, rfl, rfl⟩
  · intro i
    rw [hpair]
    simp only [List.mem_filter, List.mem_range]
    rw [laneletHit_iff]
  · intro i
    rw [hpair]
    simp only [List.mem_filter, List.mem_range, Bool.not_eq_true']
    constructor
    · rintro ⟨hi, hb⟩
      refine ⟨hi, ?_⟩
      rw [← laneletHit_iff G _ target_lanelets]
      simpa using hb
    · rintro ⟨hi, hb⟩
      refine ⟨hi, ?_⟩
      rw [← laneletHit_iff G _ target_lanelets] at hb
      simp only [Bool.not_eq_true] at hb
      exact hb
  · intro i hi
    rw [hpair]
    simp only [List.mem_filter, List.mem_range, Bool.not_eq_true']
    by_cases hb : laneletHit G (G.toPolygon2d (objects.objects.getD i default))
        target_lanelets = true
    · left
      refine ⟨⟨hi, hb⟩, ?_⟩
      rintro ⟨-, hfalse⟩
      rw [hb] at hfalse
      cases hfalse
    · right
      refine ⟨?_, ⟨hi, by simpa using hb⟩⟩
      rintro ⟨-, htrue⟩
      exact hb htrue

/-- Lanelet fixtures for the C5 witness: one degenerate lanelet with an empty
boundary and one whose boundary ring contains the origin vertex. -/
def laneletsW : List ConstLanelet :=
  [⟨[]⟩, ⟨[(0, 0), (1, 0), (1, 1)]⟩]

/-- Two objects: one whose (toy, single-vertex) footprint coincides with the
second lanelet's origin vertex, one far away. -/
def objsLane : PredictedObjects :=
  { header := default
    objects := [mkObject 1 0 0 0 0 [] [], mkObject 2 5 5 0 0 [] []] }

theorem separateObjectIndicesByLanelets_spec_witness :
    (0 ∈ (separateObjectIndicesByLanelets G0 objsLane laneletsW).1 ↔
      0 < objsLane.objects.length ∧
      ∃ llt ∈ laneletsW, llt.polygon2d ≠ [] ∧
        G0.disjoint (closeRing llt.polygon2d)
          (G0.toPolygon2d (objsLane.objects.getD 0 default)) = false) :=
  (separateObjectIndicesByLanelets_spec G0 objsLane laneletsW (by simp [laneletsW])).1 0

/-- C1: for a positive time resolution, the ego projection returns the empty
sequence on an empty centerline, and otherwise exactly one sample per
`t = j·resolution` with `t < horizon + 1e-3`, whose velocity is
`max(currentSpeed + acceleration·t, minSustainedSpeed)` and whose pose is the
centerline interpolated at the initial Frenet arc length plus
`currentSpeed·t + ½·acceleration·t²`. -/
theorem createPredictedPath_spec (G : GeoOps)
    (ego_predicted_path_params : EgoPredictedPathParams)
    (path_points : List PathPointWithLaneId) (vehicle_pose : Pose)
    (current_velocity : ℚ) (ego_seg_idx : ℕ)
    (hres : 0 < ego_predicted_path_params.time_resolution) :
    createPredictedPath G ego_predicted_path_params path_points vehicle_pose
        current_velocity ego_seg_idx
      = (if path_points = [] then []
         else
          (List.range
              (⌈(ego_predicted_path_params.time_horizon + 1 / 1000)
                / ego_predicted_path_params.time_resolution⌉).toNat).map
            fun (j : ℕ) =>
              { time := (j : ℚ) * ego_predicted_path_params.time_resolution
                pose := G.calcInterpolatedPoseOnPath path_points
                  (G.convertToFrenetLength path_points vehicle_pose.position ego_seg_idx
                    + (current_velocity * ((j : ℚ) * ego_predicted_path_params.time_resolution)
                      + 1 / 2 * ego_predicted_path_params.acceleration
                        * ((j : ℚ) * ego_predicted_path_params.time_resolution)
                        * ((j : ℚ) * ego_predicted_path_params.time_resolution)))
                velocity := max
                  (current_velocity + ego_predicted_path_params.acceleration
                    * ((j : ℚ) * ego_predicted_path_params.time_resolution))
                  ego_predicted_path_params.min_slow_speed }) ∧
    (path_points ≠ [] → ∀ j : ℕ,
      ((j : ℚ) * ego_predicted_path_params.time_resolution
          < ego_predicted_path_params.time_horizon + 1 / 1000 ↔
        j < (createPredictedPath G ego_predicted_path_params path_points vehicle_pose
          current_velocity ego_seg_idx).length)) := by
  have hmain : createPredictedPath G ego_predicted_path_params path_points vehicle_pose
      current_velocity ego_seg_idx
      = (if path_points = [] then []
         else
          (List.range
              (⌈(ego_predicted_path_params.time_horizon + 1 / 1000)
                / ego_predicted_path_params.time_resolution⌉).toNat).map
            fun (j : ℕ) =>
              { time := (j : ℚ) * ego_predicted_path_params.time_resolution
                pose := G.calcInterpolatedPoseOnPath path_points
                  (G.convertToFrenetLength path_points vehicle_pose.position ego_seg_idx
                    + (current_velocity * ((j : ℚ) * ego_predicted_path_params.time_resolution)
                      + 1 / 2 * ego_predicted_path_params.acceleration
                        * ((j : ℚ) * ego_predicted_path_params.time_resolution)
                        * ((j : ℚ) * ego_predicted_path_params.time_resolution)))
                velocity := max
                  (current_velocity + ego_predicted_path_params.acceleration
                    * ((j : ℚ) * ego_predicted_path_params.time_resolution))
                  ego_predicted_path_params.min_slow_speed }) := by
    rw [createPredictedPath]
    split
    · rfl
    · rw [sampleTimes_eq _ _ hres, List.map_map]
      rfl
  refine ⟨hmain, ?_⟩
  intro hne j
  rw [hmain, if_neg hne, List.length_map, List.length_range]
  exact nat_mul_lt_iff_lt_ceil _ _ hres j

/-- Ego projection parameters from the spec's own worked example:
acceleration 0, speed floor 0, horizon 3, resolution 1. -/
def egoParamsW : EgoPredictedPathParams :=
  { min_slow_speed := 0, acceleration := 0, time_horizon := 3, time_resolution := 1 }

/-- A one-point centerline for the C1 witness. -/
def ptsW : List PathPointWithLaneId := [default]

theorem createPredictedPath_spec_witness :
    createPredictedPath G0 egoParamsW ptsW default 5 0
      = (if ptsW = [] then []
         else
          (List.range (⌈(egoParamsW.time_horizon + 1 / 1000)
              / egoParamsW.time_resolution⌉).toNat).map
            fun (j : ℕ) =>
              { time := (j : ℚ) * egoParamsW.time_resolution
                pose := G0.calcInterpolatedPoseOnPath ptsW
                  (G0.convertToFrenetLength ptsW (default : Pose).position 0
                    + (5 * ((j : ℚ) * egoParamsW.time_resolution)
                      + 1 / 2 * egoParamsW.acceleration
                        * ((j : ℚ) * egoParamsW.time_resolution)
                        * ((j : ℚ) * egoParamsW.time_resolution)))
                velocity := max (5 + egoParamsW.acceleration
                  * ((j : ℚ) * egoParamsW.time_resolution)) egoParamsW.min_slow_speed }) :=
  (createPredictedPath_spec G0 egoParamsW ptsW default 5 0 (by norm_num [egoParamsW])).1

theorem filterMap_map_time (g : ℚ → Option Pose)
    (mk : ℚ → Pose → PoseWithVelocityAndPolygonStamped)
    (hmk : ∀ t p, (mk t p).time = t) :
    ∀ l : List ℚ,
      ((l.filterMap fun t => (g t).map (mk t)).map fun s => s.time)
        = l.filter fun t => (g t).isSome := by
  intro l
  induction l with
  | nil => rfl
  | cons t rest ih =>
    rw [List.filterMap_cons, List.filter_cons]
    cases hgt : g t with
    | none =>
      simp only [Option.map_none', Option.isSome_none]
      rw [if_neg (by simp)]
      exact ih
    | some p =>
      simp only [Option.map_some', Option.isSome_some, if_true]
      rw [List.map_cons, hmk, ih]

theorem calcInterpolatedPose_isSome (path : PredictedPath) (t : ℚ) :
    (calcInterpolatedPose path t).isSome = true ↔
      path.path ≠ [] ∧ 0 ≤ t ∧
        t ≤ path.time_step * ((path.path.length - 1 : ℕ) : ℚ) := by
  rw [calcInterpolatedPose]
  split_ifs with h1 h2 h3
  · simp [h1]
  · simp only [Option.isSome_none, Bool.false_eq_true, false_iff]
    rintro ⟨-, h0, -⟩
    exact absurd h2 (not_lt.mpr h0)
  · simp only [Option.isSome_none, Bool.false_eq_true, false_iff]
    rintro ⟨-, -, hle⟩
    exact absurd h3 (not_lt.mpr hle)
  · simp only [Option.isSome_some, true_iff]
    exact ⟨h1, not_lt.mp h2, not_lt.mp h3⟩

theorem range_filter_zero (N : ℕ) (hN : 0 < N) :
    (List.range N).filter (fun j => decide (j = 0)) = [0] := by
  obtain ⟨m, rfl⟩ := Nat.exists_eq_succ_of_ne_zero (Nat.pos_iff_ne_zero.mp hN)
  rw [List.range_succ_eq_map, List.filter_cons, if_pos (by simp)]
  congr 1
  rw [List.filter_map]
  rw [show (List.filter ((fun j => decide (j = 0)) ∘ Nat.succ) (List.range m)) = [] from ?_]
  · rfl
  · rw [List.filter_eq_nil]
    intro a _
    simp [Function.comp]

theorem transform_paths_length (G : GeoOps) (object : PredictedObject) (H r : ℚ) :
    (transform G object H r).predicted_paths.length
      = object.kinematics.predicted_paths.length := by
  show (List.map _ _).length = _
  rw [List.length_map]

theorem getD_map_of_lt {A B : Type} [Inhabited A] [Inhabited B] (f : A → B)
    (l : List A) (i : ℕ) (hi : i < l.length) :
    (l.map f).getD i default = f (l.getD i default) := by
  have hm : i < (l.map f).length := by
    rw [List.length_map]
    exact hi
  rw [List.getD_eq_getElem _ _ hm, List.getD_eq_getElem _ _ hi, List.getElem_map]

theorem transform_getD_eq (G : GeoOps) (object : PredictedObject) (H r : ℚ)
    (i : ℕ) (hi : i < object.kinematics.predicted_paths.length) :
    (transform G object H r).predicted_paths.getD i default
      = ({ confidence := (object.kinematics.predicted_paths.getD i default).confidence
           path := (sampleTimes r H).filterMap fun t =>
             (calcInterpolatedPose (object.kinematics.predicted_paths.getD i default)
                 t).map fun obj_pose =>
               { time := t, pose := obj_pose
                 velocity := object.kinematics.initial_twist_with_covariance.twist.linear.x
                 poly := G.toPolygon2dAtPose obj_pose object.shape } }
          : PredictedPathWithPolygon) := by
  have hrepr : (transform G object H r).predicted_paths
      = object.kinematics.predicted_paths.map fun path =>
          ({ confidence := path.confidence
             path := (sampleTimes r H).filterMap fun t =>
               (calcInterpolatedPose path t).map fun obj_pose =>
                 { time := t, pose := obj_pose
                   velocity := object.kinematics.initial_twist_with_covariance.twist.linear.x
                   poly := G.toPolygon2dAtPose obj_pose object.shape } }
            : PredictedPathWithPolygon) := rfl
  rw [hrepr, getD_map_of_lt _ _ i hi]

theorem transform_map_time (G : GeoOps) (object : PredictedObject) (H r : ℚ)
    (i : ℕ) (hi : i < object.kinematics.predicted_paths.length) :
    (((transform G object H r).predicted_paths.getD i default).path.map fun s => s.time)
      = (sampleTimes r H).filter fun t =>
          (calcInterpolatedPose (object.kinematics.predicted_paths.getD i default)
            t).isSome := by
  rw [transform_getD_eq G object H r i hi]
  exact filterMap_map_time
    (calcInterpolatedPose (object.kinematics.predicted_paths.getD i default))
    (fun t obj_pose =>
      { time := t, pose := obj_pose
        velocity := object.kinematics.initial_twist_with_covariance.twist.linear.x
        poly := G.toPolygon2dAtPose obj_pose object.shape })
    (fun t p => rfl) (sampleTimes r H)

/-- C2 (amended): for positive resolution and nonnegative horizon, the
other-agent projection keeps one projected path per predicted path (same
confidence), emits a sample exactly at those grid times where the path's own
pose interpolation is defined (an out-of-span time skips that single sample
only — no extrapolation), every emitted sample carries the pose the
interpolation produced and the constant velocity
`initial_twist.twist.linear.x` read once per object (the x component of the
initial twist, not the planar speed magnitude `hypot(vx, vy)`), and a
single-sample predicted path yields exactly one projected sample, at `t = 0`. -/
theorem transform_spec (G : GeoOps) (object : PredictedObject) (H r : ℚ)
    (hr : 0 < r) (hH : 0 ≤ H) :
    (transform G object H r).predicted_paths.length
      = object.kinematics.predicted_paths.length ∧
    (∀ i : ℕ, i < object.kinematics.predicted_paths.length →
      ((transform G object H r).predicted_paths.getD i default).confidence
        = (object.kinematics.predicted_paths.getD i default).confidence) ∧
    (∀ i : ℕ, i < object.kinematics.predicted_paths.length →
      (((transform G object H r).predicted_paths.getD i default).path.map fun s => s.time)
        = (sampleTimes r H).filter fun t =>
            (calcInterpolatedPose (object.kinematics.predicted_paths.getD i default)
              t).isSome) ∧
    (∀ i : ℕ, ∀ s ∈ ((transform G object H r).predicted_paths.getD i default).path,
      s.velocity = object.kinematics.initial_twist_with_covariance.twist.linear.x ∧
      calcInterpolatedPose (object.kinematics.predicted_paths.getD i default) s.time
        = some s.pose) ∧
    (∀ (i : ℕ) (p0 : Pose), i < object.kinematics.predicted_paths.length →
      (object.kinematics.predicted_paths.getD i default).path = [p0] →
      (((transform G object H r).predicted_paths.getD i default).path.map fun s => s.time)
        = [0]) := by
  refine ⟨transform_paths_length G object H r, ?_,
    fun i hi => transform_map_time G object H r i hi, ?_, ?_⟩
  · intro i hi
    rw [transform_getD_eq G object H r i hi]
  · intro i s hs
    by_cases hi : i < object.kinematics.predicted_paths.length
    · rw [transform_getD_eq G object H r i hi] at hs
      rw [List.mem_filterMap] at hs
      obtain ⟨t, ht, hsome⟩ := hs
      rw [Option.map_eq_some'] at hsome
      obtain ⟨p, hp, hmk⟩ := hsome
      subst hmk
      exact ⟨rfl, hp⟩
    · have hge : (transform G object H r).predicted_paths.length ≤ i := by
        rw [transform_paths_length]
        exact not_lt.mp hi
      rw [List.getD_eq_default _ _ hge] at hs
      exact absurd hs (List.not_mem_nil s)
  · intro i p0 hi hpath
    rw [transform_map_time G object H r i hi]
    have hiff : ∀ t : ℚ,
        ((calcInterpolatedPose (object.kinematics.predicted_paths.getD i default)
          t).isSome = true) ↔ t = 0 := by
      intro t
      rw [calcInterpolatedPose_isSome, hpath]
      constructor
      · rintro ⟨-, h0, hle⟩
        have hle2 : t ≤ 0 := by
          simpa using hle
        linarith
      · rintro rfl
        refine ⟨by simp, le_refl 0, by simp⟩
    set N := (⌈(H + 1 / 1000) / r⌉).toNat with hN
    have hNpos : 0 < N := by
      have hdiv : (0 : ℚ) < (H + 1 / 1000) / r := div_pos (by linarith) hr
      have hceil : (0 : ℤ) < ⌈(H + 1 / 1000) / r⌉ := Int.ceil_pos.mpr hdiv
      omega
    rw [sampleTimes_eq _ _ hr, List.filter_map, ← hN]
    have hcong : List.filter
        ((fun t => (calcInterpolatedPose
            (object.kinematics.predicted_paths.getD i default) t).isSome)
          ∘ fun (j : ℕ) => (j : ℚ) * r) (List.range N)
        = List.filter (fun j => decide (j = 0)) (List.range N) := by
      apply List.filter_congr
      intro j _
      rw [Function.comp_apply, Bool.eq_iff_iff, decide_eq_true_iff, hiff ((j : ℚ) * r)]
      constructor
      · intro hmul
        rcases mul_eq_zero.mp hmul with hj | hrz
        · exact_mod_cast hj
        · exact absurd hrz (ne_of_gt hr)
      · rintro rfl
        simp
    rw [hcong, range_filter_zero N hNpos]
    simp

theorem sampleTimes_one_one : sampleTimes 1 1 = [0, 1] := by
  rw [sampleTimes_eq 1 1 one_pos]
  have h : ⌈((1 : ℚ) + 1 / 1000) / 1⌉ = 2 := by
    rw [Int.ceil_eq_iff]
    constructor <;> norm_num
  rw [h, show Int.toNat 2 = 2 from rfl]
  norm_num [List.range_succ]

/-- A predicted path with a single sample at relative time 0. -/
def pathSingle : PredictedPath := { path := [default], time_step := 1/2, confidence := 1 }

/-- An object with planar velocity `(3, 4)` (planar speed 5) and one
single-sample predicted path. -/
def objSingle : PredictedObject := mkObject 3 0 0 3 4 [] [pathSingle]

theorem transform_spec_witness :
    (((transform G0 objSingle 1 1).predicted_paths.getD 0 default).path.map
      fun s => s.time) = [0] :=
  (transform_spec G0 objSingle 1 1 (by norm_num) (by norm_num)).2.2.2.2 0 default
    (by simp [objSingle, mkObject]) rfl

/-- C2, counterexample to the claim as stated: the object `objSingle` has
initial planar velocity `(3, 4)`, hence planar speed `hypot(3,4) = 5`, and
its single-sample path produces one projected sample; that sample's velocity
is `3` (the x component of the twist), whose square `9` differs from
`vx² + vy² = 25`, so the emitted velocity is NOT the planar speed. -/
theorem transform_velocity_counterexample :
    ((transform G0 objSingle 1 1).predicted_paths.getD 0 default).path ≠ [] ∧
    (((transform G0 objSingle 1 1).predicted_paths.getD 0 default).path.getD 0
        default).velocity ^ 2
      ≠ objSingle.kinematics.initial_twist_with_covariance.twist.linear.x ^ 2
        + objSingle.kinematics.initial_twist_with_covariance.twist.linear.y ^ 2 := by
  have hpath : ((transform G0 objSingle 1 1).predicted_paths.getD 0 default).path
      = [{ time := 0, pose := interpPoseAt pathSingle 0, velocity := 3
           poly := G0.toPolygon2dAtPose (interpPoseAt pathSingle 0) objSingle.shape }] := by
    show (List.filterMap _ (sampleTimes 1 1)) = _
    rw [sampleTimes_one_one]
    rw [List.filterMap_cons, List.filterMap_cons, List.filterMap_nil]
    rw [show calcInterpolatedPose pathSingle 0 = some (interpPoseAt pathSingle 0) from by
      rw [calcInterpolatedPose]
      norm_num [pathSingle]]
    rw [show calcInterpolatedPose pathSingle 1 = none from by
      rw [calcInterpolatedPose]
      norm_num [pathSingle]]
    rfl
  constructor
  · rw [hpath]
    simp
  · rw [hpath]
    norm_num [objSingle, mkObject]

/-- C6 (amended): for a positive resolution, each retained predicted path's
sample count equals the number of grid times `t = j·r < H + 1e-3` at which
that path's own pose interpolation is defined (skipped samples excluded);
when every grid time is within the path's span this count is
`⌈(H + 1e-3)/r⌉`, the full grid size. -/
theorem transform_sample_count_spec (G : GeoOps) (object : PredictedObject)
    (H r : ℚ) (hr : 0 < r) :
    (∀ i : ℕ, i < object.kinematics.predicted_paths.length →
      ((transform G object H r).predicted_paths.getD i default).path.length
        = ((sampleTimes r H).filter fun t =>
            (calcInterpolatedPose (object.kinematics.predicted_paths.getD i default)
              t).isSome).length) ∧
    (∀ i : ℕ, i < object.kinematics.predicted_paths.length →
      (∀ t ∈ sampleTimes r H,
        (calcInterpolatedPose (object.kinematics.predicted_paths.getD i default)
          t).isSome = true) →
      ((transform G object H r).predicted_paths.getD i default).path.length
        = (⌈(H + 1 / 1000) / r⌉).toNat) := by
  have hcount : ∀ i : ℕ, i < object.kinematics.predicted_paths.length →
      ((transform G object H r).predicted_paths.getD i default).path.length
        = ((sampleTimes r H).filter fun t =>
            (calcInterpolatedPose (object.kinematics.predicted_paths.getD i default)
              t).isSome).length := by
    intro i hi
    have h1 := congrArg List.length (transform_map_time G object H r i hi)
    rw [List.length_map] at h1
    exact h1
  refine ⟨hcount, ?_⟩
  intro i hi hall
  rw [hcount i hi]
  rw [List.filter_eq_self.mpr hall, sampleTimes_length r H hr]

theorem transform_sample_count_spec_witness :
    ((transform G0 objSingle 1 1).predicted_paths.getD 0 default).path.length
      = ((sampleTimes 1 1).filter fun t =>
          (calcInterpolatedPose (objSingle.kinematics.predicted_paths.getD 0 default)
            t).isSome).length :=
  (transform_sample_count_spec G0 objSingle 1 1 one_pos).1 0
    (by simp [objSingle, mkObject])

/-- A predicted path with two samples one second apart: its span `[0, 1]`
covers the whole horizon of the counterexample. -/
def pathTwo : PredictedPath := { path := [default, default], time_step := 1, confidence := 1 }

/-- An object with two predicted paths: one spanning the full horizon, one
with a single sample. -/
def objTwoPaths : PredictedObject := mkObject 4 0 0 0 0 [] [pathTwo, pathSingle]

/-- C6, counterexample to the claim as stated: with horizon 1 and resolution
1, `⌈H/r⌉ = 1` while the full-span path gets 2 samples (t = 0 and t = 1, the
boundary being inclusive within 1e-3), and even the epsilon-inclusive grid
size `⌈(H + 1e-3)/r⌉ = 2` fails for the single-sample path, which keeps only
1 sample: no fixed formula in `H` and `r` alone gives the count, because
undefined interpolation skips samples. -/
theorem transform_sample_count_counterexample :
    ((transform G0 objTwoPaths 1 1).predicted_paths.getD 0 default).path.length = 2 ∧
    ((transform G0 objTwoPaths 1 1).predicted_paths.getD 1 default).path.length = 1 ∧
    (⌈(1 : ℚ) / 1⌉).toNat = 1 ∧
    (⌈((1 : ℚ) + 1 / 1000) / 1⌉).toNat = 2 := by
  have hc2 : (⌈((1 : ℚ) + 1 / 1000) / 1⌉).toNat = 2 := by
    have h : ⌈((1 : ℚ) + 1 / 1000) / 1⌉ = 2 := by
      rw [Int.ceil_eq_iff]
      constructor <;> norm_num
    rw [h]
    rfl
  refine ⟨?_, ?_, by norm_num, hc2⟩
  · have hp : ((transform G0 objTwoPaths 1 1).predicted_paths.getD 0 default).path
        = (sampleTimes 1 1).filterMap fun t =>
            (calcInterpolatedPose pathTwo t).map fun obj_pose =>
              { time := t, pose := obj_pose, velocity := 0
                poly := G0.toPolygon2dAtPose obj_pose objTwoPaths.shape } := rfl
    rw [hp, sampleTimes_one_one]
    rw [List.filterMap_cons, List.filterMap_cons, List.filterMap_nil]
    rw [show calcInterpolatedPose pathTwo 0 = some (interpPoseAt pathTwo 0) from by
      rw [calcInterpolatedPose]
      norm_num [pathTwo]
      all_goals simp]
    rw [show calcInterpolatedPose pathTwo 1 = some (interpPoseAt pathTwo 1) from by
      rw [calcInterpolatedPose]
      norm_num [pathTwo]
      all_goals simp]
    rfl
  · have hp : ((transform G0 objTwoPaths 1 1).predicted_paths.getD 1 default).path
        = (sampleTimes 1 1).filterMap fun t =>
            (calcInterpolatedPose pathSingle t).map fun obj_pose =>
              { time := t, pose := obj_pose, velocity := 0
                poly := G0.toPolygon2dAtPose obj_pose objTwoPaths.shape } := rfl
    rw [hp, sampleTimes_one_one]
    rw [List.filterMap_cons, List.filterMap_cons, List.filterMap_nil]
    rw [show calcInterpolatedPose pathSingle 0 = some (interpPoseAt pathSingle 0) from by
      rw [calcInterpolatedPose]
      norm_num [pathSingle]]
    rw [show calcInterpolatedPose pathSingle 1 = none from by
      rw [calcInterpolatedPose]
      norm_num [pathSingle]]
    rfl
